import Mathlib

/-!
Formal model of the webdnn backend compilation pipeline.

Shallow embedding of:
* `src/graph_builder/backend/webgpu/generator.py` (`generate`,
  `generate_kernels`, `validate_kernel_source`),
* `src/graph_builder/backend/webgpu/operators/sgemm.py` (`Sgemm`),
* `src/graph_transpiler/webdnn/backend/webgl/kernels/scalar_pow.py`
  (the registered ScalarPow handler, named `elementwise_add` in the source),
* `src/graph_transpiler/backend/fallback/kernels/util.py`
  (`calculate_stride`).

External collaborators that are not part of the given source (the allocator,
the optimizer rule engine, the per-operator built-in kernel functions, the
injector utilities, the shader toolchain) are modelled from the spec as
abstract parameters gathered in environment records.
-/

/-- Modelled from the spec: an axis order is "a permutation mapping logical
tensor dimensions to physical storage dimensions"; the source classes
(`graph_builder.graph.variables.attributes.order.AxisOrder` and the
graph_transpiler `Order` classes, not under src) expose `ndim` and
`axes_dict`, a map from an axis to its position. Axes are identified by
name. -/
structure AxisOrder where
  axes : List String
deriving DecidableEq, Repr

/-- Number of dimensions of the axis order (`AxisOrder.ndim`). -/
def AxisOrder.ndim (o : AxisOrder) : Nat := o.axes.length

/-- Position of an axis in the order (`order.axes_dict[axis]`). The Python
dict lookup assumes the axis is present; claims about it carry that
hypothesis. -/
def AxisOrder.axes_dict (o : AxisOrder) (axis : String) : Nat :=
  o.axes.indexOf axis

/-- Modelled from the spec: a tensor descriptor (`Variable`, not under src)
carries a logical shape (sequence of integers) and an axis-order tag. -/
structure Variable where
  shape : List Int
  order : AxisOrder
deriving DecidableEq, Repr

/-- Element count of a variable (`Variable.size`, i.e. `np.prod(shape)`). -/
def Variable.size (v : Variable) : Int := v.shape.prod

/-! ## Sgemm operator
Embedding of `src/graph_builder/backend/webgpu/operators/sgemm.py`. The
`Operator` base class state that `Sgemm` uses is its `name` and the
`inputs` / `outputs` registries filled by `append_input` / `append_output`.
A failing Python `assert` raises a bare `AssertionError`; constructors and
calls are therefore modelled as `Option`-valued, `none` standing for the
raised assertion (which carries no payload). -/

structure Sgemm where
  name : Option String
  M : Int
  N : Int
  K : Int
  out_shape : List Int
  out_order : AxisOrder
  transpose_A : Bool
  transpose_B : Bool
  inputs : List (String × Variable)
  outputs : List (String × Variable)
deriving DecidableEq, Repr

/-- Embedding of `Sgemm.__init__`: asserts `len(out_shape) == out_order.ndim`
and `np.product(out_shape) == M * N`, then stores the parameters. -/
def Sgemm.make (name : Option String) (M N K : Int) (out_shape : List Int)
    (out_order : AxisOrder) (transpose_A transpose_B : Bool) : Option Sgemm :=
  if out_shape.length = out_order.ndim then
    if out_shape.prod = M * N then
      some { name := name, M := M, N := N, K := K, out_shape := out_shape,
             out_order := out_order, transpose_A := transpose_A,
             transpose_B := transpose_B, inputs := [], outputs := [] }
    else none
  else none

/-- Embedding of `Sgemm.__call__`: asserts `A.size == M * K` and
`B.size == N * K`, registers `A` and `B` as inputs named "A" and "B",
creates the output variable `C` from `out_shape` and `out_order`, registers
it as output "C" and returns it (the updated operator state is returned
alongside). -/
def Sgemm.call (self : Sgemm) (A B : Variable) : Option (Sgemm × Variable) :=
  if A.size = self.M * self.K then
    if B.size = self.N * self.K then
      let self1 := { self with inputs := self.inputs ++ [("A", A), ("B", B)] }
      let C : Variable := { shape := self.out_shape, order := self.out_order }
      let self2 := { self1 with outputs := self1.outputs ++ [("C", C)] }
      some (self2, C)
    else none
  else none

/-! ## WebGPU descriptor generator
Embedding of `src/graph_builder/backend/webgpu/generator.py`. The kernel
type `K`, the memory-layout type `L` and the constants-data type `D` are
opaque to the generator and are type parameters; the external collaborators
(optimizer, allocator, built-in kernel functions, shader toolchain) are
fields of environment records. -/

section WebGPU

variable {K L D : Type}

/-- Operator runtime variants dispatched by `generate_kernels`: the fifteen
`isinstance` branches of the source, plus `unknown` for any other operator
class (the `isinstance(op, Operator)` fallback branch). -/
inductive OpVariant
  | linear
  | axiswise_bias
  | relu
  | elu
  | tanh
  | local_response_normalization
  | max_pooling_2d
  | average_pooling_2d
  | axiswise_scale
  | elementwise_sum
  | flatten
  | sgemm
  | im2col
  | col2im
  | affine_transform
  | unknown
deriving DecidableEq, Repr

/-- Data of an operator instance as seen by the dispatcher: its runtime
variant and its printed representation `str(op)`, which the source
interpolates into the unsupported-operator message. -/
structure OpTag where
  variant : OpVariant
  str : String
deriving DecidableEq, Repr

/-- Modelled from the spec: an operator instance carries a parameter bag;
the only entry the dispatcher reads is the reserved key "custom_kernel",
holding a caller-supplied kernel-emission function invoked with the
operator and the two layouts. The operator is passed to the function as its
`OpTag` data (a strictly positive structure cannot hand a function itself
as an argument). `custom_kernel = none` models absence of the key. -/
structure Operator (K L : Type) where
  tag : OpTag
  custom_kernel : Option (OpTag → L → L → List K)

/-- Modelled from the spec: the fifteen built-in kernel-emission handlers
imported by the generator (`graph_builder.backend.webgpu.kernels.*`, not
under src); each maps `(operator, constants_layout, variables_layout)` to a
list of kernels. -/
structure Handlers (K L : Type) where
  linear : OpTag → L → L → List K
  axiswise_bias : OpTag → L → L → List K
  relu : OpTag → L → L → List K
  elu : OpTag → L → L → List K
  tanh : OpTag → L → L → List K
  local_response_normalization : OpTag → L → L → List K
  max_pooling_2d : OpTag → L → L → List K
  average_pooling_2d : OpTag → L → L → List K
  axiswise_scale : OpTag → L → L → List K
  elementwise_sum : OpTag → L → L → List K
  flatten : OpTag → L → L → List K
  sgemm : OpTag → L → L → List K
  im2col : OpTag → L → L → List K
  col2im : OpTag → L → L → List K
  affine_transform : OpTag → L → L → List K

/-- Modelled from the spec: a graph exposes a deterministic topological
operator traversal (`util.listup_operators`, not under src) and declared
input / output tensor lists; `ops` is the operator list in that canonical
order, inputs and outputs are tensor identifiers. -/
structure Graph (K L : Type) where
  ops : List (Operator K L)
  inputs : List String
  outputs : List String

/-- Modelled from the spec: `util.listup_operators(graph)` returns the
operators in the graph's canonical topological order. -/
def listup_operators (graph : Graph K L) : List (Operator K L) := graph.ops

/-- Compiled artifact assembled by `generate`
(`graph_builder.backend.webgpu.graph_descriptor.GraphDescriptor`): kernel
list, both layouts, and the graph's inputs and outputs. -/
structure GraphDescriptor (K L : Type) where
  kernels : List K
  constants_layout : L
  variables_layout : L
  inputs : List String
  outputs : List String

/-- Dispatch of one operator: the body of the `for` loop of
`generate_kernels`. Each built-in variant calls its registered handler with
the operator and the two layouts; an `unknown` operator with a
"custom_kernel" parameter calls that function the same way; otherwise
`NotImplementedError(f"{op} is Unknown for WebGPUDescriptorGenerator")` is
raised, modelled as `Except.error` of the message. -/
def handle_operator (H : Handlers K L) (op : Operator K L)
    (constants_layout variables_layout : L) : Except String (List K) :=
  match op.tag.variant with
  | .linear => .ok (H.linear op.tag constants_layout variables_layout)
  | .axiswise_bias => .ok (H.axiswise_bias op.tag constants_layout variables_layout)
  | .relu => .ok (H.relu op.tag constants_layout variables_layout)
  | .elu => .ok (H.elu op.tag constants_layout variables_layout)
  | .tanh => .ok (H.tanh op.tag constants_layout variables_layout)
  | .local_response_normalization =>
      .ok (H.local_response_normalization op.tag constants_layout variables_layout)
  | .max_pooling_2d => .ok (H.max_pooling_2d op.tag constants_layout variables_layout)
  | .average_pooling_2d => .ok (H.average_pooling_2d op.tag constants_layout variables_layout)
  | .axiswise_scale => .ok (H.axiswise_scale op.tag constants_layout variables_layout)
  | .elementwise_sum => .ok (H.elementwise_sum op.tag constants_layout variables_layout)
  | .flatten => .ok (H.flatten op.tag constants_layout variables_layout)
  | .sgemm => .ok (H.sgemm op.tag constants_layout variables_layout)
  | .im2col => .ok (H.im2col op.tag constants_layout variables_layout)
  | .col2im => .ok (H.col2im op.tag constants_layout variables_layout)
  | .affine_transform => .ok (H.affine_transform op.tag constants_layout variables_layout)
  | .unknown =>
    match op.custom_kernel with
    | some f => .ok (f op.tag constants_layout variables_layout)
    | none => .error (op.tag.str ++ " is Unknown for WebGPUDescriptorGenerator")

/-- Loop of `generate_kernels`: `kernels` accumulates `kernels += handler(...)`
over the operator list; a raised `NotImplementedError` aborts the loop. -/
def generate_kernels_loop (H : Handlers K L) (constants_layout variables_layout : L) :
    List (Operator K L) → List K → Except String (List K)
  | [], kernels => .ok kernels
  | op :: rest, kernels =>
    match handle_operator H op constants_layout variables_layout with
    | .error e => .error e
    | .ok ks => generate_kernels_loop H constants_layout variables_layout rest (kernels ++ ks)

/-- Embedding of `generate_kernels(graph, constants_layout, variables_layout)`:
walks `util.listup_operators(graph)` in order, dispatching each operator. -/
def generate_kernels (H : Handlers K L) (graph : Graph K L)
    (constants_layout variables_layout : L) : Except String (List K) :=
  generate_kernels_loop H constants_layout variables_layout (listup_operators graph) []

/-- Process-wide flags read by `generate`
(`graph_builder.util.flags.DEBUG` and
`flags.backend.webgpu.VALIDATE_GENERATED_SOURCE`). -/
structure Flags where
  DEBUG : Bool
  VALIDATE_GENERATED_SOURCE : Bool
deriving DecidableEq, Repr

/-- Ways `generate` can abort: a `NotImplementedError` propagating out of
`generate_kernels`, or the `exit(result.returncode)` of
`validate_kernel_source`. -/
inductive GenError
  | unsupported_op (msg : String)
  | validation_exit (code : Int)
deriving DecidableEq, Repr

/-- Environment of external collaborators used by `generate`, modelled from
the spec: the optimizer rule engine (`WebGPUOptimizeRule().optimize`,
returning the rewritten graph and a change flag), the allocator
(`Allocator.allocate`, returning `variables_layout, constants_layout,
constants_data`), the built-in handlers, size observers used only by debug
prints, the kernel-source projection used by
`GraphDescriptor.concat_kernel_sources`, and the external shader toolchain
(`xcrun ... metal`), as the exit code it returns on a given source. -/
structure GenEnv (K L D : Type) where
  optimize : Graph K L → Graph K L × Bool
  allocate : Graph K L → L × L × D
  handlers : Handlers K L
  data_size : D → Nat
  layout_size : L → Nat
  source_of : K → String
  toolchain : String → Int

/-- Modelled from the spec: `descriptor.concat_kernel_sources()` concatenates
the kernel sources of the descriptor in order. -/
def concat_kernel_sources (env : GenEnv K L D) (descriptor : GraphDescriptor K L) : String :=
  String.join (descriptor.kernels.map env.source_of)

/-- Embedding of `validate_kernel_source(descriptor)`: concatenates the
kernel sources, hands them to the external toolchain, and on a non-zero
return code prints a diagnostic and exits the process with that code
(modelled as `Except.error (.validation_exit code)`); the printed line is
returned as the observational log. -/
def validate_kernel_source (env : GenEnv K L D) (descriptor : GraphDescriptor K L) :
    Except GenError Unit × List String :=
  let source := concat_kernel_sources env descriptor
  let result := env.toolchain source
  if result ≠ 0 then
    (.error (.validation_exit result), ["Generated kernel source is invalid."])
  else
    (.ok (), [])

/-- Embedding of `generate(graph)`: optimizes the graph, allocates the
layouts and constants data, generates the kernels from the optimized graph
and the computed layouts, assembles the `GraphDescriptor`, optionally
validates the generated source, and returns the descriptor with the
constants data. Debug prints (`util.dump`, the layout size summaries, the
validation notice) are collected in an observational log returned alongside
the result. -/
def generate (env : GenEnv K L D) (flags : Flags) (graph0 : Graph K L) :
    Except GenError (GraphDescriptor K L × D) × List String :=
  let graph := (env.optimize graph0).1
  let dbg1 : List String := if flags.DEBUG then ["dump graph"] else []
  let alloc := env.allocate graph
  let variables_layout := alloc.1
  let constants_layout := alloc.2.1
  let constants_data := alloc.2.2
  let dbg2 : List String :=
    if flags.DEBUG then
      ["[GraphDescriptorGeneratorWebGPU] constants_layout total size: "
         ++ toString (env.data_size constants_data) ++ " * sizeof(float)",
       "[GraphDescriptorGeneratorWebGPU] variables_layout total size: "
         ++ toString (env.layout_size variables_layout) ++ " * sizeof(float)"]
    else []
  match generate_kernels env.handlers graph constants_layout variables_layout with
  | .error e => (.error (.unsupported_op e), dbg1 ++ dbg2)
  | .ok kernels =>
    let descriptor : GraphDescriptor K L :=
      { kernels := kernels
        constants_layout := constants_layout
        variables_layout := variables_layout
        inputs := graph.inputs
        outputs := graph.outputs }
    if flags.VALIDATE_GENERATED_SOURCE then
      let dbg3 : List String :=
        if flags.DEBUG then
          ["[GraphDescriptorGeneratorWebGPU] validate generated kernel source"]
        else []
      match validate_kernel_source env descriptor with
      | (.error e, vlog) => (.error e, dbg1 ++ dbg2 ++ dbg3 ++ vlog)
      | (.ok _, vlog) => (.ok (descriptor, constants_data), dbg1 ++ dbg2 ++ dbg3 ++ vlog)
    else
      (.ok (descriptor, constants_data), dbg1 ++ dbg2)

end WebGPU

/-! ## WebGL ScalarPow kernel handler
Embedding of `src/graph_transpiler/webdnn/backend/webgl/kernels/scalar_pow.py`.
The handler function is named `elementwise_add` in the source. The injector
utilities, `optimize_loop_structure`, `texture_shape` and `texture_stride`
(from `webdnn.backend.webgl.kernels.util` and friends, not under src) are
abstract environment fields. -/

namespace WebGL

/-- Values registered with the `UniformInjector`: texture samplers (tensor
bindings), shape or stride tuples (vec2 / vec4), and scalar floats. The
numeric scalar is carried abstractly as an integer code since no claim
depends on float semantics. -/
inductive UValue
  | tensor (v : Variable)
  | ints (v : List Int)
  | scalar (x : Int)
deriving DecidableEq, Repr

/-- Whether a registered value is a texture sampler binding. -/
def UValue.isSampler : UValue → Bool
  | .tensor _ => true
  | .ints _ => false
  | .scalar _ => false

/-- WebGL kernel, mirroring the `Kernel(source, name, samplers, uniforms, y)`
construction in the source: shader source, kernel name, sampler bindings,
uniform bindings and the output tensor. -/
structure Kernel where
  source : String
  name : String
  samplers : List (String × UValue)
  uniforms : List (String × UValue)
  output : Variable
deriving DecidableEq, Repr

/-- ScalarPow operator instance as the handler reads it: its input
`op.inputs["x0"]`, its output `op.outputs["y"]`, and its "value" parameter
(abstract scalar). -/
structure ScalarPow where
  x0 : Variable
  y : Variable
  value : Int
deriving DecidableEq, Repr

/-- Environment of external utilities used by the handler, modelled from the
spec: the loop-structure optimizer (per-operand broadcast shapes and
strides keyed by operand), the texture shape and stride helpers, the
`KernelNameInjector` (a unique kernel name derived from the operator, and
name injection into a source), and the `UniformInjector`'s source
injection. -/
structure Env where
  optimize_loop_structure :
    List Variable → Variable → (Variable → List Int) × (Variable → List Int)
  texture_shape : Variable → List Int
  texture_stride : Variable → List Int
  kernel_name : ScalarPow → String
  inject_name : String → String → String
  inject_uniforms : List (String × UValue) → String → String
  FragmentShaderPreamble : String

/-- Body of the module-level `template` string of the source, following the
`FragmentShaderPreamble`. -/
def templateBody : String :=
  "
%%UNIFORM(sampler2D, X0)%%;

%%UNIFORM(vec2, s_y)%%;
%%UNIFORM(vec4, d_Y)%%;
%%UNIFORM(vec4, s_Y)%%;

%%UNIFORM(vec2, d_x0)%%;
%%UNIFORM(vec2, s_x0)%%;
%%UNIFORM(vec4, d_X0)%%;
%%UNIFORM(vec4, s_X0)%%;

%%UNIFORM(float, value)%%;

void main() \x7b
    vec4 p_Y = convert_position(gl_FragCoord.xy, s_y, s_Y, d_Y);    
    vec4 p_X0 = mod(p_Y, d_X0); // for broadcasting
    vec2 p_x0 = convert_position(p_X0, s_X0, s_x0, d_x0);

    vec4 x0 = texture2D(X0, p_x0 / d_x0);
    vec4 y;
    
    y = pow(x0, value);
    
    gl_FragColor = y;
\x7d
"

/-- The module-level `template`: preamble plus body. -/
def template (env : Env) : String :=
  env.FragmentShaderPreamble ++ templateBody

/-- Values registered with the `uniform_injector` by the handler, in the
source's registration order. -/
def scalar_pow_registered (env : Env) (op : ScalarPow) : List (String × UValue) :=
  let x0 := op.x0
  let y := op.y
  let shapes := (env.optimize_loop_structure [x0, y] y).1
  let strides := (env.optimize_loop_structure [x0, y] y).2
  [("X0", .tensor x0),
   ("s_y", .ints (env.texture_stride y)),
   ("d_Y", .ints (shapes y)),
   ("s_Y", .ints (strides y)),
   ("d_x0", .ints (env.texture_shape x0)),
   ("s_x0", .ints (env.texture_stride x0)),
   ("d_X0", .ints (shapes x0)),
   ("s_X0", .ints (strides x0)),
   ("value", .scalar op.value)]

/-- Modelled from the spec: the `UniformInjector`'s sampler bindings are the
registered tensor entries ("sampler/buffer bindings (tensor → physical
allocation)"). -/
def injector_samplers (registered : List (String × UValue)) : List (String × UValue) :=
  registered.filter (fun p => p.2.isSampler)

/-- Modelled from the spec: the `UniformInjector`'s uniform bindings are the
registered non-tensor entries ("bound uniform values (scalar/vector)"). -/
def injector_uniforms (registered : List (String × UValue)) : List (String × UValue) :=
  registered.filter (fun p => ¬ p.2.isSampler)

/-- Embedding of the registered ScalarPow handler (named `elementwise_add`
in the source): computes the loop structure over `[x0, y]` with reference
`y`, registers the uniforms, injects the kernel name and then the uniforms
into the template, and returns a single kernel producing `y`. The memory
layout argument is ignored (bound to `_` in the source) and is kept
abstract. -/
def elementwise_add {ML : Type} (env : Env) (op : ScalarPow) (_ : ML) : List Kernel :=
  let registered := scalar_pow_registered env op
  let name := env.kernel_name op
  let source0 := template env
  let source1 := env.inject_name name source0
  let source2 := env.inject_uniforms registered source1
  [{ source := source2
     name := name
     samplers := injector_samplers registered
     uniforms := injector_uniforms registered
     output := op.y }]

end WebGL

/-! ## Fallback stride computation
Embedding of `src/graph_transpiler/backend/fallback/kernels/util.py`. -/

/-- Embedding of `calculate_stride(var, axis)`:
`int(np.prod(var.shape[var.order.axes_dict[axis] + 1:]))`, the product of
the shape entries strictly after the axis's position in the order. -/
def calculate_stride (var : Variable) (axis : String) : Int :=
  (var.shape.drop (var.order.axes_dict axis + 1)).prod

/-! ## Concrete instances used by witnesses and counterexamples -/

/-- Two-axis order used by the concrete Sgemm instances. -/
def exOrder2 : AxisOrder := ⟨["r", "c"]⟩

/-- Concrete Sgemm instance with `M = 2`, `N = 3`, `K = 4`, `out_shape = [2, 3]`. -/
def sgemmEx : Sgemm :=
  { name := some "sg", M := 2, N := 3, K := 4, out_shape := [2, 3],
    out_order := exOrder2, transpose_A := false, transpose_B := false,
    inputs := [], outputs := [] }

/-- An input whose size 5 violates `A.size = M * K = 8`. -/
def vBadA1 : Variable := ⟨[5], ⟨["x"]⟩⟩

/-- Another violating input, of a different shape (size 7). -/
def vBadA2 : Variable := ⟨[7], ⟨["x"]⟩⟩

/-- A well-sized first operand (`size = 8 = M * K`). -/
def vGoodA : Variable := ⟨[8], ⟨["x"]⟩⟩

/-- A well-sized second operand (`size = 12 = N * K`). -/
def vGoodB : Variable := ⟨[12], ⟨["x"]⟩⟩

/-- The output variable `C` produced by `sgemmEx` on well-sized operands. -/
def vC : Variable := ⟨[2, 3], exOrder2⟩

/-- The state of `sgemmEx` after a successful call on `vGoodA`, `vGoodB`. -/
def sgemmEx2 : Sgemm :=
  { sgemmEx with inputs := [("A", vGoodA), ("B", vGoodB)], outputs := [("C", vC)] }

/-! ## Theorems for the Sgemm operator -/

/-- Claim C7: every Sgemm instance satisfies the tensor-descriptor invariant
for its declared output: construction fails unless `len(out_shape)` equals
`out_order.ndim` and `product(out_shape)` equals `M * N`, so the output
variable `C` created by `Sgemm.__call__` always has shape length equal to
its axis-order rank and element count equal to `M * N`. -/
theorem sgemm_output_invariant (name : Option String) (M N K : Int)
    (out_shape : List Int) (out_order : AxisOrder) (tA tB : Bool) :
    ((out_shape.length ≠ out_order.ndim ∨ out_shape.prod ≠ M * N) →
      Sgemm.make name M N K out_shape out_order tA tB = none)
    ∧ (∀ s A B s2 C, Sgemm.make name M N K out_shape out_order tA tB = some s →
        Sgemm.call s A B = some (s2, C) →
        C.shape.length = C.order.ndim ∧ C.shape.prod = s.M * s.N
          ∧ C.size = s.M * s.N) := by
  constructor
  · intro h
    unfold Sgemm.make
    rcases h with h | h <;> split_ifs <;> simp_all
  · intro s A B s2 C hmk hcall
    unfold Sgemm.make at hmk
    split_ifs at hmk with h1 h2
    simp only [Option.some.injEq] at hmk
    subst hmk
    unfold Sgemm.call at hcall
    split_ifs at hcall
    simp only [Option.some.injEq, Prod.mk.injEq] at hcall
    obtain ⟨-, hC⟩ := hcall
    subst hC
    exact ⟨h1, h2, h2⟩

/-- Witness for C7: the theorem applied to the concrete instance `sgemmEx`. -/
theorem sgemm_output_invariant_witness :
    Sgemm.make (some "sg") 2 3 4 [2, 3] exOrder2 false false = some sgemmEx
    ∧ Sgemm.call sgemmEx vGoodA vGoodB = some (sgemmEx2, vC)
    ∧ (vC.shape.length = vC.order.ndim ∧ vC.shape.prod = sgemmEx.M * sgemmEx.N
        ∧ vC.size = sgemmEx.M * sgemmEx.N) :=
  ⟨by decide, by decide,
   (sgemm_output_invariant (some "sg") 2 3 4 [2, 3] exOrder2 false false).2
     sgemmEx vGoodA vGoodB sgemmEx2 vC (by decide) (by decide)⟩

/-- Counterexample for C8: the failure raised by `Sgemm.__call__` is a bare
`AssertionError` that carries no payload, so two calls whose offending
operands have different shapes produce identical outcomes — the failure
does not carry the offending tensors' shapes. -/
theorem sgemm_call_error_carries_no_shapes :
    vBadA1.shape ≠ vBadA2.shape
    ∧ vBadA1.size ≠ sgemmEx.M * sgemmEx.K
    ∧ vBadA2.size ≠ sgemmEx.M * sgemmEx.K
    ∧ Sgemm.call sgemmEx vBadA1 vGoodB = none
    ∧ Sgemm.call sgemmEx vBadA2 vGoodB = none
    ∧ Sgemm.call sgemmEx vBadA1 vGoodB = Sgemm.call sgemmEx vBadA2 vGoodB := by
  decide

/-- Claim C8 (amended): `Sgemm.__call__(A, B)` fails with a fatal assertion
error, carrying no shape payload, exactly when `A.size ≠ M * K` or
`B.size ≠ N * K`; when both sizes match it registers `A` and `B` as inputs
named "A" and "B" and returns exactly one output variable with shape
`out_shape` and order `out_order`. -/
theorem sgemm_call_spec (s : Sgemm) (A B : Variable) :
    (Sgemm.call s A B = none ↔ (A.size ≠ s.M * s.K ∨ B.size ≠ s.N * s.K))
    ∧ (∀ s2 C, Sgemm.call s A B = some (s2, C) →
        s2.inputs = s.inputs ++ [("A", A), ("B", B)]
        ∧ s2.outputs = s.outputs ++ [("C", C)]
        ∧ C.shape = s.out_shape ∧ C.order = s.out_order) := by
  constructor
  · unfold Sgemm.call
    split_ifs with h1 h2 <;> simp_all
  · intro s2 C hcall
    unfold Sgemm.call at hcall
    split_ifs at hcall
    simp only [Option.some.injEq, Prod.mk.injEq] at hcall
    obtain ⟨hs2, hC⟩ := hcall
    subst hs2
    subst hC
    exact ⟨rfl, rfl, rfl, rfl⟩

/-- Witness for C8: the amended theorem applied to the concrete instance. -/
theorem sgemm_call_spec_witness :
    Sgemm.call sgemmEx vGoodA vGoodB = some (sgemmEx2, vC)
    ∧ (sgemmEx2.inputs = sgemmEx.inputs ++ [("A", vGoodA), ("B", vGoodB)]
       ∧ sgemmEx2.outputs = sgemmEx.outputs ++ [("C", vC)]
       ∧ vC.shape = sgemmEx.out_shape ∧ vC.order = sgemmEx.out_order) :=
  ⟨by decide, (sgemm_call_spec sgemmEx vGoodA vGoodB).2 sgemmEx2 vC (by decide)⟩

/-! ## Theorems for the ScalarPow handler and the stride computation -/

/-- Claim C9: for every ScalarPow operator, the registered handler produces
exactly one kernel, whose output tensor is the operator's output `y`, whose
source is the template after name and uniform injection, and whose bound
uniforms include the operator's "value" parameter and the shapes and
strides computed by the loop-structure optimization over operands
`[x0, y]` with reference `y`. -/
theorem scalar_pow_kernel_spec {ML : Type} (env : WebGL.Env) (op : WebGL.ScalarPow)
    (ml : ML) :
    ∃ k : WebGL.Kernel,
      WebGL.elementwise_add env op ml = [k]
      ∧ k.output = op.y
      ∧ k.source = env.inject_uniforms (WebGL.scalar_pow_registered env op)
          (env.inject_name (env.kernel_name op) (WebGL.template env))
      ∧ ("value", WebGL.UValue.scalar op.value) ∈ k.uniforms
      ∧ ("d_Y", WebGL.UValue.ints
          ((env.optimize_loop_structure [op.x0, op.y] op.y).1 op.y)) ∈ k.uniforms
      ∧ ("s_Y", WebGL.UValue.ints
          ((env.optimize_loop_structure [op.x0, op.y] op.y).2 op.y)) ∈ k.uniforms
      ∧ ("d_X0", WebGL.UValue.ints
          ((env.optimize_loop_structure [op.x0, op.y] op.y).1 op.x0)) ∈ k.uniforms
      ∧ ("s_X0", WebGL.UValue.ints
          ((env.optimize_loop_structure [op.x0, op.y] op.y).2 op.x0)) ∈ k.uniforms := by
  refine ⟨_, rfl, rfl, rfl, ?_, ?_, ?_, ?_, ?_⟩ <;>
    simp [WebGL.elementwise_add, WebGL.injector_uniforms, WebGL.scalar_pow_registered,
      WebGL.UValue.isSampler, List.filter]

/-- Concrete variable used by the stride witness: shape `[2, 3, 4]`, axes
`["n", "h", "w"]`. -/
def exVar10 : Variable := ⟨[2, 3, 4], ⟨["n", "h", "w"]⟩⟩

/-- Claim C10: for every variable whose shape length matches its axis-order
rank (with duplicate-free axes), `calculate_stride` at the axis in position
`i` returns the product of the shape extents at all positions after `i`;
consequently the stride of the last axis is `1`, and for adjacent axes the
stride of the outer axis equals the stride of the inner axis times the
inner axis's extent. -/
theorem calculate_stride_spec (var : Variable)
    (hrank : var.shape.length = var.order.axes.length)
    (hnd : var.order.axes.Nodup) :
    (∀ i, i < var.order.axes.length →
      calculate_stride var (var.order.axes.getD i "") = (var.shape.drop (i + 1)).prod)
    ∧ (∀ h : var.order.axes ≠ [],
      calculate_stride var (var.order.axes.getLast h) = 1)
    ∧ (∀ i, i + 1 < var.order.axes.length →
      calculate_stride var (var.order.axes.getD i "") =
        calculate_stride var (var.order.axes.getD (i + 1) "") *
          var.shape.getD (i + 1) 0) := by
  have key : ∀ i, (hi : i < var.order.axes.length) →
      calculate_stride var (var.order.axes.getD i "") = (var.shape.drop (i + 1)).prod := by
    intro i hi
    rw [List.getD_eq_getElem _ _ hi]
    unfold calculate_stride AxisOrder.axes_dict
    rw [List.indexOf_getElem hnd i hi]
  refine ⟨key, ?_, ?_⟩
  · intro h
    have hlen : 0 < var.order.axes.length := List.length_pos.mpr h
    rw [List.getLast_eq_getElem]
    have := key (var.order.axes.length - 1) (by omega)
    rw [List.getD_eq_getElem _ _ (by omega)] at this
    rw [this]
    have hdrop : var.order.axes.length - 1 + 1 = var.shape.length := by omega
    rw [hdrop, List.drop_length, List.prod_nil]
  · intro i hi
    have hi1 : i < var.order.axes.length := by omega
    have hs1 : i + 1 < var.shape.length := by omega
    rw [key i hi1, key (i + 1) hi]
    rw [List.drop_eq_getElem_cons hs1, List.prod_cons,
      List.getD_eq_getElem _ _ hs1, mul_comm]

/-- Witness for C10: the theorem applied to `exVar10` at the adjacent pair
of axes in positions 0 and 1. -/
theorem calculate_stride_spec_witness :
    (exVar10.shape.length = exVar10.order.axes.length ∧ exVar10.order.axes.Nodup)
    ∧ calculate_stride exVar10 (exVar10.order.axes.getD 0 "") =
        calculate_stride exVar10 (exVar10.order.axes.getD 1 "") *
          exVar10.shape.getD 1 0 :=
  ⟨⟨by decide, by decide⟩,
   (calculate_stride_spec exVar10 (by decide) (by decide)).2.2 0 (by decide)⟩

/-! ## Concrete generator instances used by witnesses and counterexamples -/

/-- Concrete handler set over `K = Nat`, `L = Nat`: the handler of the i-th
`isinstance` branch emits the single kernel `[i]`. -/
def exHandlers : Handlers Nat Nat :=
  { linear := fun _ _ _ => [1]
    axiswise_bias := fun _ _ _ => [2]
    relu := fun _ _ _ => [3]
    elu := fun _ _ _ => [4]
    tanh := fun _ _ _ => [5]
    local_response_normalization := fun _ _ _ => [6]
    max_pooling_2d := fun _ _ _ => [7]
    average_pooling_2d := fun _ _ _ => [8]
    axiswise_scale := fun _ _ _ => [9]
    elementwise_sum := fun _ _ _ => [10]
    flatten := fun _ _ _ => [11]
    sgemm := fun _ _ _ => [12]
    im2col := fun _ _ _ => [13]
    col2im := fun _ _ _ => [14]
    affine_transform := fun _ _ _ => [15] }

/-- Concrete custom kernel-emission function: emits the two layouts it was
called with. -/
def exCustomF : OpTag → Nat → Nat → List Nat := fun _ cl vl => [cl, vl]

/-- A Relu operator instance. -/
def exOpRelu : Operator Nat Nat := ⟨⟨.relu, "Relu1"⟩, none⟩

/-- An operator of an unknown variant with no "custom_kernel" parameter. -/
def exOpBad : Operator Nat Nat := ⟨⟨.unknown, "MyOp"⟩, none⟩

/-- An operator of an unknown variant carrying a "custom_kernel" function. -/
def exOpCustom : Operator Nat Nat := ⟨⟨.unknown, "CustomOp"⟩, some exCustomF⟩

/-- A fully supported graph: a Relu operator followed by a custom one. -/
def exGraphOk : Graph Nat Nat := ⟨[exOpRelu, exOpCustom], ["in0"], ["out0"]⟩

/-- A graph containing an unsupported operator. -/
def exGraphBad : Graph Nat Nat := ⟨[exOpRelu, exOpBad], ["in0"], ["out0"]⟩

/-- Concrete generator environment: identity optimizer, an allocator
returning `variables_layout = 1`, `constants_layout = 2`,
`constants_data = 3`, and a toolchain that accepts every source. -/
def exEnv : GenEnv Nat Nat Nat :=
  { optimize := fun g => (g, false)
    allocate := fun _ => (1, 2, 3)
    handlers := exHandlers
    data_size := fun d => d
    layout_size := fun l => l
    source_of := fun k => toString k
    toolchain := fun _ => 0 }

/-- The same environment with a toolchain that rejects every source with
exit status 1. -/
def exEnvBad : GenEnv Nat Nat Nat := { exEnv with toolchain := fun _ => 1 }

/-! ## Theorems for the WebGPU generator -/

/-- An operator the dispatcher cannot handle: none of the fifteen built-in
variants and no "custom_kernel" parameter. -/
def unsupported_operator {K L : Type} (op : Operator K L) : Prop :=
  op.tag.variant = OpVariant.unknown ∧ op.custom_kernel = none

/-- Dispatch succeeds on every operator that is not unsupported. -/
lemma handle_operator_ok_of_not_unsupported {K L : Type} (H : Handlers K L)
    (op : Operator K L) (cl vl : L) (h : ¬ unsupported_operator op) :
    ∃ ks, handle_operator H op cl vl = .ok ks := by
  cases hv : op.tag.variant <;> simp [handle_operator, hv]
  cases hc : op.custom_kernel with
  | some f => simp
  | none => exact absurd ⟨hv, hc⟩ h

/-- The kernel-generation loop aborts with the unsupported-operator message
of some unsupported operator of the list whenever one is present. -/
lemma generate_kernels_loop_error {K L : Type} (H : Handlers K L) (cl vl : L) :
    ∀ (ops : List (Operator K L)) (acc : List K),
      (∃ op ∈ ops, unsupported_operator op) →
      ∃ op ∈ ops, unsupported_operator op ∧
        generate_kernels_loop H cl vl ops acc =
          .error (op.tag.str ++ " is Unknown for WebGPUDescriptorGenerator") := by
  intro ops
  induction ops with
  | nil => intro acc h; simp at h
  | cons op rest ih =>
    intro acc h
    by_cases hu : unsupported_operator op
    · refine ⟨op, List.mem_cons_self op rest, hu, ?_⟩
      obtain ⟨hv, hc⟩ := hu
      simp [generate_kernels_loop, handle_operator, hv, hc]
    · obtain ⟨ks, hks⟩ := handle_operator_ok_of_not_unsupported H op cl vl hu
      have hrest : ∃ o ∈ rest, unsupported_operator o := by
        obtain ⟨o, ho, houns⟩ := h
        rcases List.mem_cons.mp ho with rfl | ho2
        · exact absurd houns hu
        · exact ⟨o, ho2, houns⟩
      obtain ⟨o, ho, houns, heq⟩ := ih (acc ++ ks) hrest
      exact ⟨o, List.mem_cons_of_mem op ho, houns,
        by simp [generate_kernels_loop, hks, heq]⟩

/-- Claim C1: for every graph whose optimized form contains an operator that
is none of the fifteen built-in variants and has no "custom_kernel"
parameter, `generate` fails with an unsupported-operator error whose
message names the offending operator, and no `GraphDescriptor` is produced
(`Except.error` carries no artifact). The optimizer is an external
collaborator, so the hypothesis speaks about the graph handed to the
dispatcher. -/
theorem unsupported_operator_rejection {K L D : Type} (env : GenEnv K L D)
    (flags : Flags) (g : Graph K L)
    (h : ∃ op ∈ listup_operators (env.optimize g).1, unsupported_operator op) :
    ∃ op ∈ listup_operators (env.optimize g).1, unsupported_operator op ∧
      (generate env flags g).1 =
        .error (.unsupported_op
          (op.tag.str ++ " is Unknown for WebGPUDescriptorGenerator")) := by
  obtain ⟨op, ho, hu, heq⟩ := generate_kernels_loop_error env.handlers
    ((env.allocate (env.optimize g).1).2.1) ((env.allocate (env.optimize g).1).1)
    (listup_operators (env.optimize g).1) [] h
  refine ⟨op, ho, hu, ?_⟩
  simp only [generate, generate_kernels]
  rw [heq]

/-- Witness for C1: the concrete graph `exGraphBad` contains the unsupported
operator `exOpBad`, and `generate` aborts naming it. -/
theorem unsupported_operator_rejection_witness :
    (∃ op ∈ listup_operators (exEnv.optimize exGraphBad).1, unsupported_operator op)
    ∧ ∃ op ∈ listup_operators (exEnv.optimize exGraphBad).1, unsupported_operator op ∧
        (generate exEnv ⟨false, false⟩ exGraphBad).1 =
          .error (.unsupported_op
            (op.tag.str ++ " is Unknown for WebGPUDescriptorGenerator")) :=
  ⟨⟨exOpBad, List.mem_cons_of_mem _ (List.mem_cons_self _ _), rfl, rfl⟩,
   unsupported_operator_rejection exEnv ⟨false, false⟩ exGraphBad
     ⟨exOpBad, List.mem_cons_of_mem _ (List.mem_cons_self _ _), rfl, rfl⟩⟩

/-- Claim C2: `generate_kernels` is deterministic — two invocations with the
same graph and the same layouts yield identical kernel lists (same kernels,
same order). In this pure embedding the result is a function of the
arguments, so equality of the two runs follows. -/
theorem generate_kernels_deterministic {K L : Type} (H : Handlers K L)
    (g : Graph K L) (cl vl : L) (ks1 ks2 : List K)
    (h1 : generate_kernels H g cl vl = .ok ks1)
    (h2 : generate_kernels H g cl vl = .ok ks2) : ks1 = ks2 := by
  rw [h1] at h2
  exact Except.ok.inj h2

/-- Witness for C2: the concrete graph compiles to the kernel list
`[3, 2, 1]` in both runs. -/
theorem generate_kernels_deterministic_witness :
    generate_kernels exHandlers exGraphOk 2 1 = .ok [3, 2, 1]
    ∧ ([3, 2, 1] : List Nat) = [3, 2, 1] :=
  ⟨rfl, generate_kernels_deterministic exHandlers exGraphOk 2 1 _ _ rfl rfl⟩

/-- Claim C3: `generate` runs graph optimization first, then layout
allocation, then kernel generation from the already-computed layouts, then
descriptor assembly: whenever it returns an artifact, the kernels are
exactly `generate_kernels` of the optimized graph and the allocator's two
layouts, the descriptor bundles those layouts, the optimized graph's inputs
and outputs, and the returned constants data is the allocator's. -/
theorem pipeline_stage_composition {K L D : Type} (env : GenEnv K L D)
    (flags : Flags) (g : Graph K L) (d : GraphDescriptor K L) (cd : D)
    (log : List String) (h : generate env flags g = (.ok (d, cd), log)) :
    generate_kernels env.handlers (env.optimize g).1
        ((env.allocate (env.optimize g).1).2.1) ((env.allocate (env.optimize g).1).1)
      = .ok d.kernels
    ∧ d.constants_layout = (env.allocate (env.optimize g).1).2.1
    ∧ d.variables_layout = (env.allocate (env.optimize g).1).1
    ∧ d.inputs = (env.optimize g).1.inputs
    ∧ d.outputs = (env.optimize g).1.outputs
    ∧ cd = (env.allocate (env.optimize g).1).2.2 := by
  simp only [generate] at h
  cases hk : generate_kernels env.handlers (env.optimize g).1
      ((env.allocate (env.optimize g).1).2.1) ((env.allocate (env.optimize g).1).1) with
  | error e => rw [hk] at h; simp at h
  | ok ks =>
    rw [hk] at h
    by_cases hv : flags.VALIDATE_GENERATED_SOURCE = true
    · simp only [hv, if_true] at h
      cases hval : validate_kernel_source env
          { kernels := ks
            constants_layout := (env.allocate (env.optimize g).1).2.1
            variables_layout := (env.allocate (env.optimize g).1).1
            inputs := (env.optimize g).1.inputs
            outputs := (env.optimize g).1.outputs } with
      | mk r vlog =>
        rw [hval] at h
        cases r with
        | error e => simp at h
        | ok u =>
          simp only [Prod.mk.injEq, Except.ok.injEq] at h
          obtain ⟨⟨hd, hcd⟩, -⟩ := h
          subst hd
          subst hcd
          exact ⟨rfl, rfl, rfl, rfl, rfl, rfl⟩
    · simp only [if_neg hv] at h
      simp only [Prod.mk.injEq, Except.ok.injEq] at h
      obtain ⟨⟨hd, hcd⟩, -⟩ := h
      subst hd
      subst hcd
      exact ⟨rfl, rfl, rfl, rfl, rfl, rfl⟩

/-- Witness for C3: the theorem applied to the concrete run of `generate`
on `exGraphOk`. -/
theorem pipeline_stage_composition_witness :
    generate exEnv ⟨false, false⟩ exGraphOk =
      (.ok (⟨[3, 2, 1], 2, 1, ["in0"], ["out0"]⟩, 3), [])
    ∧ (generate_kernels exEnv.handlers (exEnv.optimize exGraphOk).1
          ((exEnv.allocate (exEnv.optimize exGraphOk).1).2.1)
          ((exEnv.allocate (exEnv.optimize exGraphOk).1).1)
        = .ok (GraphDescriptor.kernels ⟨[3, 2, 1], 2, 1, ["in0"], ["out0"]⟩)
      ∧ GraphDescriptor.constants_layout ⟨[3, 2, 1], 2, 1, ["in0"], ["out0"]⟩
          = (exEnv.allocate (exEnv.optimize exGraphOk).1).2.1
      ∧ GraphDescriptor.variables_layout ⟨[3, 2, 1], 2, 1, ["in0"], ["out0"]⟩
          = (exEnv.allocate (exEnv.optimize exGraphOk).1).1
      ∧ GraphDescriptor.inputs ⟨[3, 2, 1], 2, 1, ["in0"], ["out0"]⟩
          = (exEnv.optimize exGraphOk).1.inputs
      ∧ GraphDescriptor.outputs ⟨[3, 2, 1], 2, 1, ["in0"], ["out0"]⟩
          = (exEnv.optimize exGraphOk).1.outputs
      ∧ (3 : Nat) = (exEnv.allocate (exEnv.optimize exGraphOk).1).2.2) :=
  ⟨rfl, pipeline_stage_composition exEnv ⟨false, false⟩ exGraphOk
    ⟨[3, 2, 1], 2, 1, ["in0"], ["out0"]⟩ 3 [] rfl⟩

/-- Claim C4: an operator carrying a caller-supplied kernel-emission
function under the reserved key "custom_kernel" is dispatched exactly like
a built-in handler — the function is invoked with the operator and the two
layouts — and its returned kernels are appended to the plan. -/
theorem custom_kernel_dispatch {K L : Type} (H : Handlers K L) (cl vl : L)
    (op : Operator K L) (f : OpTag → L → L → List K)
    (h1 : op.tag.variant = OpVariant.unknown) (h2 : op.custom_kernel = some f) :
    handle_operator H op cl vl = .ok (f op.tag cl vl)
    ∧ ∀ (rest : List (Operator K L)) (acc : List K),
        generate_kernels_loop H cl vl (op :: rest) acc =
          generate_kernels_loop H cl vl rest (acc ++ f op.tag cl vl) := by
  have hh : handle_operator H op cl vl = .ok (f op.tag cl vl) := by
    simp [handle_operator, h1, h2]
  exact ⟨hh, fun rest acc => by simp [generate_kernels_loop, hh]⟩

/-- Witness for C4: the theorem applied to the concrete custom operator
`exOpCustom` with emission function `exCustomF`. -/
theorem custom_kernel_dispatch_witness :
    handle_operator exHandlers exOpCustom 2 1 = .ok (exCustomF exOpCustom.tag 2 1)
    ∧ generate_kernels_loop exHandlers 2 1 [exOpCustom] [] =
        generate_kernels_loop exHandlers 2 1 [] ([] ++ exCustomF exOpCustom.tag 2 1) :=
  ⟨(custom_kernel_dispatch exHandlers 2 1 exOpCustom exCustomF rfl rfl).1,
   (custom_kernel_dispatch exHandlers 2 1 exOpCustom exCustomF rfl rfl).2 [] []⟩

/-- Counterexample for C5: the propagation policy is not configurable. In
every flag configuration in which validation runs (both settings of the
only other flag, DEBUG), a non-zero toolchain exit status aborts the
compilation with that status — no warn-and-continue configuration exists. -/
theorem validation_policy_not_configurable :
    (generate exEnvBad { DEBUG := false, VALIDATE_GENERATED_SOURCE := true } exGraphOk).1
      = .error (.validation_exit 1)
    ∧ (generate exEnvBad { DEBUG := true, VALIDATE_GENERATED_SOURCE := true } exGraphOk).1
      = .error (.validation_exit 1) :=
  ⟨rfl, rfl⟩

/-- Claim C5 (amended): external validation runs only when
`VALIDATE_GENERATED_SOURCE` is enabled — with it disabled the result does
not depend on the toolchain at all; when it runs and the toolchain returns
a non-zero exit status, compilation always aborts, reported with that exit
status (the propagation policy is not configurable). -/
theorem validation_gate_spec {K L D : Type} (env : GenEnv K L D) (flags : Flags)
    (g : Graph K L) :
    (flags.VALIDATE_GENERATED_SOURCE = false →
      ∀ t : String → Int, generate { env with toolchain := t } flags g
        = generate env flags g)
    ∧ (∀ ks c, flags.VALIDATE_GENERATED_SOURCE = true →
        generate_kernels env.handlers (env.optimize g).1
            ((env.allocate (env.optimize g).1).2.1)
            ((env.allocate (env.optimize g).1).1) = .ok ks →
        env.toolchain (String.join (ks.map env.source_of)) = c →
        c ≠ 0 →
        (generate env flags g).1 = .error (.validation_exit c)) := by
  constructor
  · intro hval t
    simp only [generate]
    cases hk : generate_kernels env.handlers (env.optimize g).1
        ((env.allocate (env.optimize g).1).2.1) ((env.allocate (env.optimize g).1).1) with
    | error e => rfl
    | ok ks => simp [hval]
  · intro ks c hval hk htc hc
    simp only [generate]
    rw [hk]
    simp only [hval, if_true]
    have hsrc : concat_kernel_sources env
        { kernels := ks
          constants_layout := (env.allocate (env.optimize g).1).2.1
          variables_layout := (env.allocate (env.optimize g).1).1
          inputs := (env.optimize g).1.inputs
          outputs := (env.optimize g).1.outputs } = String.join (ks.map env.source_of) := rfl
    simp [validate_kernel_source, hsrc, htc, hc]

/-- Witness for C5: with a toolchain that exits with status 1, the concrete
compilation aborts with `validation_exit 1`. -/
theorem validation_gate_spec_witness :
    generate_kernels exEnvBad.handlers (exEnvBad.optimize exGraphOk).1
        ((exEnvBad.allocate (exEnvBad.optimize exGraphOk).1).2.1)
        ((exEnvBad.allocate (exEnvBad.optimize exGraphOk).1).1) = .ok [3, 2, 1]
    ∧ (generate exEnvBad ⟨false, true⟩ exGraphOk).1 = .error (.validation_exit 1) :=
  ⟨rfl, (validation_gate_spec exEnvBad ⟨false, true⟩ exGraphOk).2 [3, 2, 1] 1 rfl rfl
    rfl (by decide)⟩

/-- Claim C6: the debug flag is purely observational — with all other
configuration equal, enabling it changes neither the compiled descriptor
nor the constants data (only the emitted log). -/
theorem debug_flag_observational {K L D : Type} (env : GenEnv K L D) (flags : Flags)
    (g : Graph K L) :
    (generate env { flags with DEBUG := true } g).1
      = (generate env { flags with DEBUG := false } g).1 := by
  simp only [generate]
  cases hk : generate_kernels env.handlers (env.optimize g).1
      ((env.allocate (env.optimize g).1).2.1) ((env.allocate (env.optimize g).1).1) with
  | error e => rfl
  | ok ks =>
    by_cases hv : flags.VALIDATE_GENERATED_SOURCE = true
    · simp only [hv, if_true]
      cases hval : validate_kernel_source env
          { kernels := ks
            constants_layout := (env.allocate (env.optimize g).1).2.1
            variables_layout := (env.allocate (env.optimize g).1).1
            inputs := (env.optimize g).1.inputs
            outputs := (env.optimize g).1.outputs } with
      | mk r vlog => cases r <;> simp [hval]
    · simp [if_neg hv]
